import Mathlib

/-!
Shallow embedding of the Quran-Planner core (src/app/page.tsx).

Numbers are modelled as rationals (ℚ): the source performs only linear
arithmetic and division on JavaScript numbers, and every constant appearing
in the claims is exactly representable.  `clamp`'s NaN branch has no
counterpart in ℚ; non-numeric input is covered by the Option-valued store
model used for the load path.  Strings (history labels) are carried along
but no claim depends on their exact rendering.
-/

namespace QuranPlanner

/-- `const QURAN_PAGES = 604` (page.tsx line 5). -/
def QURAN_PAGES : ℚ := 604

/-- `clamp(n, min, max)` (page.tsx lines 37-40): `Math.min(max, Math.max(min, n))`.
The `Number.isNaN` guard has no ℚ counterpart. -/
def clamp (n lo hi : ℚ) : ℚ := Min.min hi (Max.max lo n)

/-- `roundSmart(n)` (page.tsx lines 42-44): `Math.max(0, Math.round(n))`,
with `Math.round` as round-half-up on ℚ. -/
def roundSmart (n : ℚ) : ℤ := Max.max 0 ⌊n + 1/2⌋

/-- `type Plan` (page.tsx lines 12-16). `sessionsPerDay` is one of 1,2,3,5 in
the UI but is carried as a number. -/
structure Plan where
  goalKhatmah : ℚ
  daysTotal : ℚ
  sessionsPerDay : ℚ
deriving DecidableEq, Repr

/-- `type ProgressState` (page.tsx lines 18-21); `lastUpdatedAt: number | null`. -/
structure ProgressState where
  pagesCompleted : ℚ
  lastUpdatedAt : Option ℚ
deriving DecidableEq, Repr

/-- `type HistoryItem` (page.tsx lines 23-27); the source field `at` is a Lean
keyword and is rendered `atMs`. -/
structure HistoryItem where
  atMs : ℚ
  label : String
  pagesCompleted : ℚ
deriving DecidableEq, Repr

/-- The `trackMode` state: `"onPage" | "readPages"` (page.tsx line 83). -/
inductive TrackMode where
  | onPage
  | readPages
deriving DecidableEq, Repr

/-- The goal preset segmented control: `1 | 2 | 3 | "custom"` (page.tsx line 8). -/
inductive GoalPreset where
  | one
  | two
  | three
  | custom
deriving DecidableEq, Repr

/-- The days preset segmented control: `30 | 29 | "custom"` (page.tsx line 9). -/
inductive DaysPreset where
  | d30
  | d29
  | custom
deriving DecidableEq, Repr

/-- The status badge values of page.tsx line 183. -/
inductive Status where
  | ontrack
  | slight
  | behind
deriving DecidableEq, Repr

/-- The status chain of page.tsx line 183:
`delta >= 10 ? "ontrack" : delta >= -10 ? "slight" : "behind"`. -/
def statusOf (delta : ℚ) : Status :=
  if delta ≥ 10 then Status.ontrack
  else if delta ≥ -10 then Status.slight
  else Status.behind

/-- `totalPages` memo (page.tsx lines 144-147): `QURAN_PAGES * clamp(effectiveGoal, 1, 50)`.
Derived from the live UI goal inputs, not from the saved plan. -/
def totalPages (effectiveGoal : ℚ) : ℚ :=
  QURAN_PAGES * clamp effectiveGoal 1 50

/-- Result record of the `planResults` memo (page.tsx line 164). -/
structure PlanResults where
  total : ℚ
  perDay : ℚ
  perSession : ℚ
  perSalah : Option ℚ
  g : ℚ
  d : ℚ
  s : ℚ
deriving DecidableEq, Repr

/-- `planResults` memo (page.tsx lines 154-165). -/
def planResults (effectiveGoal effectiveDays sessions : ℚ) : PlanResults :=
  let g := clamp effectiveGoal 1 50
  let d := clamp effectiveDays 1 60
  let s := sessions
  let total := QURAN_PAGES * g
  let perDay := total / d
  let perSession := perDay / s
  let perSalah := if s = 5 then some (perDay / 5) else none
  ⟨total, perDay, perSession, perSalah, g, d, s⟩

/-- Result record of the `trackTotals` memo (page.tsx lines 185-197). -/
structure TrackTotals where
  completed : ℚ
  left : ℚ
  daysLeft : ℚ
  neededPerDay : ℚ
  neededPerSession : ℚ
  neededPerSalah : Option ℚ
  pct : ℚ
  status : Status
  idealCompletedByNow : ℚ
  dayNow : ℚ
  dTotal : ℚ
deriving DecidableEq, Repr

/-- `trackTotals` memo (page.tsx lines 167-198).  Arguments are the memo's
dependencies: `daysTotalFromPlan`, `ramadanDay`, `progress.pagesCompleted`,
`totalPages` and `sessionsFromPlan`. -/
def trackTotals (daysTotalFromPlan ramadanDay pagesCompleted tPages sessionsFromPlan : ℚ) :
    TrackTotals :=
  let dTotal := clamp daysTotalFromPlan 1 60
  let dayNow := clamp ramadanDay 1 dTotal
  let completed := clamp pagesCompleted 0 tPages
  let left := Max.max 0 (tPages - completed)
  let daysLeft := Max.max 0 (dTotal - dayNow + 1)
  let neededPerDay := if daysLeft > 0 then left / daysLeft else left
  let neededPerSession := neededPerDay / sessionsFromPlan
  let neededPerSalah := if sessionsFromPlan = 5 then some (neededPerDay / 5) else none
  let pct := if tPages = 0 then 0 else completed / tPages * 100
  let idealCompletedByNow := tPages / dTotal * dayNow
  let delta := completed - idealCompletedByNow
  let status := statusOf delta
  ⟨completed, left, daysLeft, neededPerDay, neededPerSession, neededPerSalah, pct, status,
    idealCompletedByNow, dayNow, dTotal⟩

/-- `savePlan` (page.tsx lines 200-211): the plan record written to state and storage. -/
def savePlan (effectiveGoal effectiveDays sessions : ℚ) : Plan :=
  ⟨clamp effectiveGoal 1 50, clamp effectiveDays 1 60, sessions⟩

/-- The goal resolution of `updateProgress` (page.tsx line 241):
`plan?.goalKhatmah ?? clamp(Number(effectiveGoal), 1, 50)`. -/
def activeGoal (plan : Option Plan) (effectiveGoal : ℚ) : ℚ :=
  match plan with
  | some p => p.goalKhatmah
  | none => clamp effectiveGoal 1 50

/-- The history push of `updateProgress` (page.tsx line 264):
`[newItem, ...history].slice(0, 10)`. -/
def historyStep (newItem : HistoryItem) (history : List HistoryItem) : List HistoryItem :=
  (newItem :: history).take 10

/-- A sequence of history pushes (one per progress-update, page.tsx line 264),
newest applied last. -/
def runUpdates (items : List HistoryItem) (init : List HistoryItem) : List HistoryItem :=
  items.foldl (fun h i => historyStep i h) init

/-- `updateProgress` (page.tsx lines 240-267), as the pure function producing the
new `ProgressState` and the new history list.  `tPages` in the body is the
component's `totalPages` memo, i.e. `totalPages effectiveGoal` (live inputs). -/
def updateProgress (plan : Option Plan) (effectiveGoal : ℚ) (trackMode : TrackMode)
    (inputPage inputReadPages ramadanDay now : ℚ) (history : List HistoryItem) :
    ProgressState × List HistoryItem :=
  let goal := activeGoal plan effectiveGoal
  let tPages := totalPages effectiveGoal
  let pagesCompleted :=
    match trackMode with
    | TrackMode.onPage =>
        let page := clamp inputPage 1 QURAN_PAGES
        if goal = 1 then page - 1 else clamp (page - 1) 0 tPages
    | TrackMode.readPages => clamp inputReadPages 0 tPages
  let newProgress : ProgressState := ⟨pagesCompleted, some now⟩
  let label :=
    match trackMode with
    | TrackMode.onPage =>
        "Day " ++ toString ramadanDay ++ " — Page " ++ toString (clamp inputPage 1 QURAN_PAGES)
    | TrackMode.readPages =>
        "Day " ++ toString ramadanDay ++ " — " ++ toString pagesCompleted ++ " pages read"
  let newItem : HistoryItem := ⟨now, label, pagesCompleted⟩
  (newProgress, historyStep newItem history)

/-- `setRamadanDayPersist` (page.tsx lines 269-273): the value both set in state
and persisted is `clamp(n, 1, daysTotalFromPlan)`. -/
def setRamadanDayPersist (n daysTotalFromPlan : ℚ) : ℚ :=
  clamp n 1 daysTotalFromPlan

/- ### The in-memory state and the persisted store -/

/-- The component's in-memory state relevant to the core (page.tsx lines 66-92);
`theme` and `tab` are presentation-only and excluded, as the spec excludes them. -/
structure AppState where
  goalPreset : GoalPreset
  customGoal : ℚ
  daysPreset : DaysPreset
  customDays : ℚ
  sessions : ℚ
  plan : Option Plan
  planSavedToast : String
  trackMode : TrackMode
  inputPage : ℚ
  inputReadPages : ℚ
  ramadanDay : ℚ
  progress : ProgressState
  history : List HistoryItem
deriving DecidableEq, Repr

/-- The initial state of the `useState` hooks (page.tsx lines 70-92), which is also
the state `resetAll` restores. -/
def defaultState : AppState :=
  { goalPreset := GoalPreset.one
    customGoal := 1
    daysPreset := DaysPreset.d30
    customDays := 30
    sessions := 2
    plan := none
    planSavedToast := ""
    trackMode := TrackMode.onPage
    inputPage := 1
    inputReadPages := 0
    ramadanDay := 1
    progress := ⟨0, none⟩
    history := [] }

/-- The `progress` value as parsed from storage before validation:
`pagesCompleted` is `none` when the field is present but not a number
(the `typeof savedProgress.pagesCompleted === "number"` guard, page.tsx line 121). -/
structure RawProgress where
  pagesCompleted : Option ℚ
  lastUpdatedAt : Option ℚ
deriving DecidableEq, Repr

/-- The persisted key-value store as seen by the load effect after
`safeJsonParse` / `Number(...)` (page.tsx lines 56-63 and 95-133): for each key,
`none` models a missing key or a value the parser rejects (`safeJsonParse`
returns null on malformed JSON; `Number` of a missing or non-numeric day
gives NaN, which the load guard treats like absence). -/
structure StoreView where
  plan : Option Plan
  progress : Option RawProgress
  history : Option (List HistoryItem)
  ramadanDay : Option ℚ
deriving DecidableEq, Repr

/-- The load effect (page.tsx lines 95-133) applied to the initial state:
a saved plan is accepted only when all three fields are truthy (non-zero);
progress only when `pagesCompleted` is a number; history is truncated to 30;
the day only when positive. -/
def loadState (store : StoreView) : AppState :=
  let s0 := defaultState
  let s1 :=
    match store.plan with
    | some p =>
        if p.goalKhatmah ≠ 0 ∧ p.daysTotal ≠ 0 ∧ p.sessionsPerDay ≠ 0 then
          { s0 with
            plan := some p
            goalPreset :=
              if p.goalKhatmah = 1 then GoalPreset.one
              else if p.goalKhatmah = 2 then GoalPreset.two
              else if p.goalKhatmah = 3 then GoalPreset.three
              else GoalPreset.custom
            customGoal :=
              if p.goalKhatmah = 1 ∨ p.goalKhatmah = 2 ∨ p.goalKhatmah = 3 then s0.customGoal
              else p.goalKhatmah
            daysPreset :=
              if p.daysTotal = 30 then DaysPreset.d30
              else if p.daysTotal = 29 then DaysPreset.d29
              else DaysPreset.custom
            customDays :=
              if p.daysTotal = 29 ∨ p.daysTotal = 30 then s0.customDays else p.daysTotal
            sessions := p.sessionsPerDay }
        else s0
    | none => s0
  let s2 :=
    match store.progress with
    | some r =>
        match r.pagesCompleted with
        | some pc => { s1 with progress := ⟨pc, r.lastUpdatedAt⟩ }
        | none => s1
    | none => s1
  let s3 :=
    match store.history with
    | some l => { s2 with history := l.take 30 }
    | none => s2
  match store.ramadanDay with
  | some v => if v > 0 then { s3 with ramadanDay := v } else s3
  | none => s3

/-- The persisted store by key (page.tsx lines 29-35); `theme` kept to show
`resetAll` leaves it alone. -/
structure PersistedStore where
  theme : Option String
  plan : Option Plan
  progress : Option ProgressState
  history : Option (List HistoryItem)
  ramadanDay : Option ℚ
deriving DecidableEq, Repr

/-- `resetAll` (page.tsx lines 213-238): every in-memory field back to its
initial value, and the four core keys removed from storage (`theme` untouched). -/
def resetAll (_s : AppState) (st : PersistedStore) : AppState × PersistedStore :=
  ({ defaultState with
      goalPreset := GoalPreset.one
      customGoal := 1
      daysPreset := DaysPreset.d30
      customDays := 30
      sessions := 2
      plan := none
      trackMode := TrackMode.onPage
      inputPage := 1
      inputReadPages := 0
      ramadanDay := 1
      progress := ⟨0, none⟩
      history := []
      planSavedToast := "" },
   { st with plan := none, progress := none, history := none, ramadanDay := none })

/-- Modelled ONLY from the spec's words, for comparison with the code:
"totalPages(activePlan) = 604 * goalCycles of the active (saved, else live) plan". -/
def specActiveTotalPages (plan : Option Plan) (effectiveGoal : ℚ) : ℚ :=
  QURAN_PAGES * activeGoal plan effectiveGoal

/- ### Helper lemmas about clamp -/

theorem clamp_le_hi (n lo hi : ℚ) : clamp n lo hi ≤ hi := min_le_left _ _

theorem lo_le_clamp (n lo hi : ℚ) (h : lo ≤ hi) : lo ≤ clamp n lo hi :=
  le_min h (le_max_left _ _)

theorem clamp_eq_self (n lo hi : ℚ) (h1 : lo ≤ n) (h2 : n ≤ hi) : clamp n lo hi = n := by
  unfold clamp
  rw [max_eq_right h1, min_eq_right h2]

/- ### Helper lemmas: definitional projections -/

theorem updateProgress_fst_onPage (plan : Option Plan) (eg ip irp rd now : ℚ)
    (h : List HistoryItem) :
    (updateProgress plan eg TrackMode.onPage ip irp rd now h).1.pagesCompleted =
      if activeGoal plan eg = 1 then clamp ip 1 QURAN_PAGES - 1
      else clamp (clamp ip 1 QURAN_PAGES - 1) 0 (totalPages eg) := rfl

theorem updateProgress_fst_readPages (plan : Option Plan) (eg ip irp rd now : ℚ)
    (h : List HistoryItem) :
    (updateProgress plan eg TrackMode.readPages ip irp rd now h).1.pagesCompleted =
      clamp irp 0 (totalPages eg) := rfl

theorem updateProgress_snd_step (plan : Option Plan) (eg : ℚ) (mode : TrackMode)
    (ip irp rd now : ℚ) (h : List HistoryItem) :
    ∃ item, (updateProgress plan eg mode ip irp rd now h).2 = historyStep item h := by
  cases mode <;> exact ⟨_, rfl⟩

theorem trackTotals_dayNow_eq (dtp rd pc tp s : ℚ) :
    (trackTotals dtp rd pc tp s).dayNow = clamp rd 1 (clamp dtp 1 60) := rfl

theorem trackTotals_dTotal_eq (dtp rd pc tp s : ℚ) :
    (trackTotals dtp rd pc tp s).dTotal = clamp dtp 1 60 := rfl

/- ### Helper lemmas: projections of the load effect -/

theorem loadState_plan_none (pr : Option RawProgress) (hi : Option (List HistoryItem))
    (rdy : Option ℚ) :
    (loadState ⟨none, pr, hi, rdy⟩).plan = none := by
  rcases pr with _ | ⟨_ | pc, lu⟩ <;> cases hi <;> cases rdy <;>
    simp [loadState, defaultState, apply_ite AppState.plan]

theorem loadState_plan_valid (g dd ss : ℚ) (pr : Option RawProgress)
    (hi : Option (List HistoryItem)) (rdy : Option ℚ)
    (hg : g ≠ 0) (hd : dd ≠ 0) (hs : ss ≠ 0) :
    (loadState ⟨some ⟨g, dd, ss⟩, pr, hi, rdy⟩).plan = some ⟨g, dd, ss⟩ := by
  rcases pr with _ | ⟨_ | pc, lu⟩ <;> cases hi <;> cases rdy <;>
    simp [loadState, defaultState, apply_ite AppState.plan, hg, hd, hs]

theorem loadState_plan_rejected (g dd ss : ℚ) (pr : Option RawProgress)
    (hi : Option (List HistoryItem)) (rdy : Option ℚ)
    (hg : g = 0) :
    (loadState ⟨some ⟨g, dd, ss⟩, pr, hi, rdy⟩).plan = none := by
  rcases pr with _ | ⟨_ | pc, lu⟩ <;> cases hi <;> cases rdy <;>
    simp [loadState, defaultState, apply_ite AppState.plan, hg]

theorem loadState_progress_none (p : Option Plan) (hi : Option (List HistoryItem))
    (rdy : Option ℚ) :
    (loadState ⟨p, none, hi, rdy⟩).progress = ⟨0, none⟩ := by
  cases p <;> cases hi <;> cases rdy <;>
    simp [loadState, defaultState, apply_ite AppState.progress]

theorem loadState_progress_invalid (p : Option Plan) (lu : Option ℚ)
    (hi : Option (List HistoryItem)) (rdy : Option ℚ) :
    (loadState ⟨p, some ⟨none, lu⟩, hi, rdy⟩).progress = ⟨0, none⟩ := by
  cases p <;> cases hi <;> cases rdy <;>
    simp [loadState, defaultState, apply_ite AppState.progress]

theorem loadState_progress_valid (p : Option Plan) (pc : ℚ) (lu : Option ℚ)
    (hi : Option (List HistoryItem)) (rdy : Option ℚ) :
    (loadState ⟨p, some ⟨some pc, lu⟩, hi, rdy⟩).progress = ⟨pc, lu⟩ := by
  cases p <;> cases hi <;> cases rdy <;>
    simp [loadState, defaultState, apply_ite AppState.progress]

theorem loadState_history_none (p : Option Plan) (pr : Option RawProgress)
    (rdy : Option ℚ) :
    (loadState ⟨p, pr, none, rdy⟩).history = [] := by
  cases p <;> rcases pr with _ | ⟨_ | pc, lu⟩ <;> cases rdy <;>
    simp [loadState, defaultState, apply_ite AppState.history]

theorem loadState_history_some (p : Option Plan) (pr : Option RawProgress)
    (l : List HistoryItem) (rdy : Option ℚ) :
    (loadState ⟨p, pr, some l, rdy⟩).history = l.take 30 := by
  cases p <;> rcases pr with _ | ⟨_ | pc, lu⟩ <;> cases rdy <;>
    simp [loadState, defaultState, apply_ite AppState.history]

theorem loadState_ramadanDay_none (p : Option Plan) (pr : Option RawProgress)
    (hi : Option (List HistoryItem)) :
    (loadState ⟨p, pr, hi, none⟩).ramadanDay = 1 := by
  cases p <;> rcases pr with _ | ⟨_ | pc, lu⟩ <;> cases hi <;>
    simp [loadState, defaultState, apply_ite AppState.ramadanDay]

theorem loadState_ramadanDay_pos (p : Option Plan) (pr : Option RawProgress)
    (hi : Option (List HistoryItem)) (v : ℚ) (hv : 0 < v) :
    (loadState ⟨p, pr, hi, some v⟩).ramadanDay = v := by
  cases p <;> rcases pr with _ | ⟨_ | pc, lu⟩ <;> cases hi <;>
    simp [loadState, defaultState, apply_ite AppState.ramadanDay, hv]

theorem loadState_empty : loadState ⟨none, none, none, none⟩ = defaultState := rfl

/- ### Claims -/

/-- C1: the tracking status is classified first-match-wins on
`delta = completed - idealCompletedByNow`: `delta ≥ 10 → on-track`,
else `delta ≥ -10 → slightly-behind`, else `behind`; in particular
`statusOf 10 = on-track`, `statusOf 9.999 = slightly-behind`,
`statusOf (-10) = slightly-behind`, `statusOf (-10.001) = behind`. -/
theorem status_classification :
    (∀ dtp rd pc tp s : ℚ, (trackTotals dtp rd pc tp s).status =
        statusOf ((trackTotals dtp rd pc tp s).completed -
          (trackTotals dtp rd pc tp s).idealCompletedByNow))
  ∧ (∀ delta : ℚ, 10 ≤ delta → statusOf delta = Status.ontrack)
  ∧ (∀ delta : ℚ, -10 ≤ delta → delta < 10 → statusOf delta = Status.slight)
  ∧ (∀ delta : ℚ, delta < -10 → statusOf delta = Status.behind)
  ∧ statusOf 10 = Status.ontrack
  ∧ statusOf (9999/1000) = Status.slight
  ∧ statusOf (-10) = Status.slight
  ∧ statusOf (-(10001/1000)) = Status.behind := by
  have hub : ∀ delta : ℚ, 10 ≤ delta → statusOf delta = Status.ontrack := by
    intro d h
    simp [statusOf, h]
  have hmid : ∀ delta : ℚ, -10 ≤ delta → delta < 10 → statusOf delta = Status.slight := by
    intro d h1 h2
    simp [statusOf, not_le.mpr h2, h1]
  have hlb : ∀ delta : ℚ, delta < -10 → statusOf delta = Status.behind := by
    intro d h
    have h1 : ¬ (10 : ℚ) ≤ d := not_le.mpr (lt_trans h (by norm_num))
    have h2 : ¬ (-10 : ℚ) ≤ d := not_le.mpr h
    simp [statusOf, h1, h2]
  exact ⟨fun dtp rd pc tp s => rfl, hub, hmid, hlb,
    hub 10 le_rfl,
    hmid (9999/1000) (by norm_num) (by norm_num),
    hmid (-10) le_rfl (by norm_num),
    hlb (-(10001/1000)) (by norm_num)⟩

/-- Witness for C1: the status at a concrete delta above the band. -/
theorem status_classification_witness : statusOf 12 = Status.ontrack :=
  status_classification.2.1 12 (by norm_num)

/-- C5: for in-range inputs the plan computation is exact:
`total = 604 * goalCycles`, `perDay = total / daysTotal`,
`perSession = perDay / sessionsPerDay`, with no rounding. -/
theorem planResults_exact (g d s : ℚ) (hg1 : 1 ≤ g) (hg2 : g ≤ 50)
    (hd1 : 1 ≤ d) (hd2 : d ≤ 60) :
    (planResults g d s).total = 604 * g
  ∧ (planResults g d s).perDay = (planResults g d s).total / d
  ∧ (planResults g d s).perSession = (planResults g d s).perDay / s := by
  have hg := clamp_eq_self g 1 50 hg1 hg2
  have hd := clamp_eq_self d 1 60 hd1 hd2
  refine ⟨?_, ?_, ?_⟩ <;> simp [planResults, QURAN_PAGES, hg, hd]

/-- Witness for C5 at the spec's example `goalCycles=2, daysTotal=29, sessions=5`. -/
theorem planResults_exact_witness :
    (planResults 2 29 5).total = 604 * 2
  ∧ (planResults 2 29 5).perDay = (planResults 2 29 5).total / 29
  ∧ (planResults 2 29 5).perSession = (planResults 2 29 5).perDay / 5 :=
  planResults_exact 2 29 5 (by norm_num) (by norm_num) (by norm_num) (by norm_num)

/-- C7: in both the plan and tracking computations the per-salah value is
present iff `sessionsPerDay = 5`, and then equals the per-day value over 5. -/
theorem perSalah_spec (g d s dtp rd pc tp : ℚ) :
    ((planResults g d s).perSalah.isSome ↔ s = 5)
  ∧ (s = 5 → (planResults g d s).perSalah = some ((planResults g d s).perDay / 5))
  ∧ ((trackTotals dtp rd pc tp s).neededPerSalah.isSome ↔ s = 5)
  ∧ (s = 5 → (trackTotals dtp rd pc tp s).neededPerSalah =
      some ((trackTotals dtp rd pc tp s).neededPerDay / 5)) := by
  by_cases h : s = 5 <;> simp [planResults, trackTotals, h]

/-- Witness for C7 at `sessions = 5`. -/
theorem perSalah_spec_witness :
    (planResults 1 30 5).perSalah = some ((planResults 1 30 5).perDay / 5) :=
  (perSalah_spec 1 30 5 1 1 0 604).2.1 rfl

/-- C10: because `dayNow` is clamped to `[1, dTotal]`, `daysLeft ≥ 1` always, so
the degenerate `daysLeft = 0` fallback is unreachable and
`neededPerDay = left / daysLeft` for every input. -/
theorem daysLeft_pos (dtp rd pc tp s : ℚ) :
    1 ≤ (trackTotals dtp rd pc tp s).daysLeft
  ∧ (trackTotals dtp rd pc tp s).neededPerDay =
      (trackTotals dtp rd pc tp s).left / (trackTotals dtp rd pc tp s).daysLeft := by
  have h1 : (1 : ℚ) ≤ clamp dtp 1 60 := lo_le_clamp dtp 1 60 (by norm_num)
  have h2 : clamp rd 1 (clamp dtp 1 60) ≤ clamp dtp 1 60 := clamp_le_hi _ _ _
  have h3 : (0 : ℚ) < clamp dtp 1 60 - clamp rd 1 (clamp dtp 1 60) + 1 := by linarith
  have h4 : Max.max (0 : ℚ) (clamp dtp 1 60 - clamp rd 1 (clamp dtp 1 60) + 1) =
      clamp dtp 1 60 - clamp rd 1 (clamp dtp 1 60) + 1 := max_eq_right (le_of_lt h3)
  constructor
  · simp only [trackTotals, h4]
    linarith
  · simp only [trackTotals, h4]
    rw [if_pos h3]

/-- C6: in onPage mode with `page = clamp(inputPage, 1, 604)`: active goal 1
gives `pagesCompleted = page - 1`; active goal above 1 gives
`pagesCompleted = clamp(page - 1, 0, totalPages)`. -/
theorem updateProgress_onPage (plan : Option Plan) (eg ip irp rd now : ℚ)
    (h : List HistoryItem) :
    (activeGoal plan eg = 1 →
      (updateProgress plan eg TrackMode.onPage ip irp rd now h).1.pagesCompleted =
        clamp ip 1 QURAN_PAGES - 1)
  ∧ (1 < activeGoal plan eg →
      (updateProgress plan eg TrackMode.onPage ip irp rd now h).1.pagesCompleted =
        clamp (clamp ip 1 QURAN_PAGES - 1) 0 (totalPages eg)) := by
  constructor
  · intro hg
    simp [updateProgress, hg]
  · intro hg
    have hne : activeGoal plan eg ≠ 1 := ne_of_gt hg
    simp [updateProgress, hne]

/-- Witness for C6: goal 1, reported page 100 gives `pagesCompleted = 99`. -/
theorem updateProgress_onPage_witness :
    (updateProgress none 1 TrackMode.onPage 100 0 1 0 []).1.pagesCompleted = 99 := by
  have hg : activeGoal none (1 : ℚ) = 1 := clamp_eq_self 1 1 50 (by norm_num) (by norm_num)
  have h := (updateProgress_onPage none 1 100 0 1 0 []).1 hg
  rw [h, clamp_eq_self 100 1 QURAN_PAGES (by norm_num) (by norm_num [QURAN_PAGES])]
  norm_num

/-- C2 counterexample: with a saved plan of goal 1 (active total pages 604) but
live UI goal 2, a readPages update of 1000 stores `pagesCompleted = 1000`,
outside `[0, totalPages(activePlan)] = [0, 604]`: the update clamps against the
live goal's total pages (1208), not the saved plan's. -/
theorem progress_bound_counterexample :
    (updateProgress (some ⟨1, 30, 2⟩) 2 TrackMode.readPages 1 1000 1 0 []).1.pagesCompleted
      = 1000
  ∧ specActiveTotalPages (some ⟨1, 30, 2⟩) 2 = 604
  ∧ ¬ ((1000 : ℚ) ≤ 604) := by
  have ht : totalPages 2 = 1208 := by
    rw [totalPages, clamp_eq_self 2 1 50 (by norm_num) (by norm_num)]
    norm_num [QURAN_PAGES]
  refine ⟨?_, ?_, by norm_num⟩
  · rw [updateProgress_fst_readPages, ht,
      clamp_eq_self 1000 0 1208 (by norm_num) (by norm_num)]
  · show QURAN_PAGES * (1 : ℚ) = 604
    norm_num [QURAN_PAGES]

/-- C2 amended: the progress-update operation always leaves `pagesCompleted` in
`[0, totalPages(liveGoal)]`, where `totalPages` is derived from the live UI goal
inputs; the load path restores a numeric stored `pagesCompleted` without any
clamping. -/
theorem progress_clamped_amended :
    (∀ (plan : Option Plan) (eg : ℚ) (mode : TrackMode) (ip irp rd now : ℚ)
        (h : List HistoryItem),
        0 ≤ (updateProgress plan eg mode ip irp rd now h).1.pagesCompleted
      ∧ (updateProgress plan eg mode ip irp rd now h).1.pagesCompleted ≤ totalPages eg)
  ∧ (∀ (p : Option Plan) (pc : ℚ) (lu : Option ℚ) (hi : Option (List HistoryItem))
        (rdy : Option ℚ),
        (loadState ⟨p, some ⟨some pc, lu⟩, hi, rdy⟩).progress.pagesCompleted = pc) := by
  constructor
  · intro plan eg mode ip irp rd now h
    have hq : QURAN_PAGES = (604 : ℚ) := rfl
    have h604 : (604 : ℚ) ≤ totalPages eg := by
      have h1 : (1 : ℚ) ≤ clamp eg 1 50 := lo_le_clamp eg 1 50 (by norm_num)
      have h2 := mul_le_mul_of_nonneg_left h1 (by norm_num : (0 : ℚ) ≤ 604)
      simpa [totalPages, QURAN_PAGES] using h2
    have htp0 : (0 : ℚ) ≤ totalPages eg := by linarith
    cases mode
    · rw [updateProgress_fst_onPage]
      by_cases hg : activeGoal plan eg = 1
      · rw [if_pos hg]
        have hlo : (1 : ℚ) ≤ clamp ip 1 QURAN_PAGES :=
          lo_le_clamp ip 1 QURAN_PAGES (by norm_num [QURAN_PAGES])
        have hhi : clamp ip 1 QURAN_PAGES ≤ (604 : ℚ) := hq ▸ clamp_le_hi ip 1 QURAN_PAGES
        constructor <;> linarith
      · rw [if_neg hg]
        exact ⟨lo_le_clamp _ 0 _ htp0, clamp_le_hi _ _ _⟩
    · rw [updateProgress_fst_readPages]
      exact ⟨lo_le_clamp _ 0 _ htp0, clamp_le_hi _ _ _⟩
  · intro p pc lu hi rdy
    rw [loadState_progress_valid]

/-- C3 counterexample: the load path truncates a restored history to 30 entries,
not 10, so with zero updates an 11-entry restored log keeps all 11 entries. -/
theorem history_bound_counterexample :
    (loadState ⟨none, none, some (List.replicate 11 ⟨0, "", 0⟩), none⟩).history.length = 11
  ∧ ¬ (11 ≤ 10) := by
  refine ⟨?_, by norm_num⟩
  rw [loadState_history_some]
  simp

/-- C3 amended: after at least one progress-update the history log has at most
10 entries and the most recent update's entry is at index 0; every update goes
through the same push-and-truncate step; but the load path truncates a restored
history only to 30 entries, so before the first update it may hold up to 30. -/
theorem history_bound_amended :
    (∀ (init items : List HistoryItem) (i : HistoryItem),
        (runUpdates (items ++ [i]) init).length ≤ 10
      ∧ (runUpdates (items ++ [i]) init).head? = some i)
  ∧ (∀ (plan : Option Plan) (eg : ℚ) (mode : TrackMode) (ip irp rd now : ℚ)
        (h : List HistoryItem),
        ∃ item, (updateProgress plan eg mode ip irp rd now h).2 = historyStep item h)
  ∧ (∀ (p : Option Plan) (pr : Option RawProgress) (l : List HistoryItem)
        (rdy : Option ℚ),
        (loadState ⟨p, pr, some l, rdy⟩).history.length ≤ 30) := by
  refine ⟨?_, fun plan eg mode ip irp rd now h => updateProgress_snd_step _ _ _ _ _ _ _ _, ?_⟩
  · intro init items i
    have hfold : runUpdates (items ++ [i]) init = historyStep i (runUpdates items init) := by
      simp [runUpdates, List.foldl_append, historyStep]
    rw [hfold]
    constructor
    · simp [historyStep]
    · simp [historyStep]
  · intro p pr l rdy
    rw [loadState_history_some]
    simp [List.length_take]

/-- C4 counterexample: the load path accepts any stored positive day without an
upper clamp: with a valid saved plan of `daysTotal = 30`, a stored day of 999 is
restored as `ramadanDay = 999`, outside `[1, 30]`. -/
theorem ramadanDay_bound_counterexample :
    (loadState ⟨some ⟨1, 30, 2⟩, none, none, some 999⟩).ramadanDay = 999
  ∧ (loadState ⟨some ⟨1, 30, 2⟩, none, none, some 999⟩).plan = some ⟨1, 30, 2⟩
  ∧ ¬ ((999 : ℚ) ≤ 30) := by
  refine ⟨?_, ?_, by norm_num⟩
  · exact loadState_ramadanDay_pos _ _ _ 999 (by norm_num)
  · exact loadState_plan_valid 1 30 2 _ _ _ (by norm_num) (by norm_num) (by norm_num)

/-- C4 amended: `setRamadanDayPersist` does clamp the day into
`[1, daysTotalFromPlan]` (when the active day total is at least 1), and the
tracking computation clamps the cursor at read time (`dayNow ∈ [1, dTotal]`);
but the load path accepts any stored positive value without an upper clamp, and
a change of the active plan's day total does not re-clamp the stored cursor. -/
theorem ramadanDay_clamped_amended :
    (∀ n d : ℚ, 1 ≤ d → 1 ≤ setRamadanDayPersist n d ∧ setRamadanDayPersist n d ≤ d)
  ∧ (∀ dtp rd pc tp s : ℚ,
        1 ≤ (trackTotals dtp rd pc tp s).dayNow
      ∧ (trackTotals dtp rd pc tp s).dayNow ≤ (trackTotals dtp rd pc tp s).dTotal) := by
  constructor
  · intro n d hd
    exact ⟨lo_le_clamp n 1 d hd, clamp_le_hi n 1 d⟩
  · intro dtp rd pc tp s
    have h1 : (1 : ℚ) ≤ clamp dtp 1 60 := lo_le_clamp dtp 1 60 (by norm_num)
    rw [trackTotals_dayNow_eq, trackTotals_dTotal_eq]
    exact ⟨lo_le_clamp rd 1 _ h1, clamp_le_hi _ _ _⟩

/-- Witness for the amended C4: setting day 999 under a 30-day plan stores 30. -/
theorem ramadanDay_clamped_amended_witness :
    1 ≤ setRamadanDayPersist 999 30 ∧ setRamadanDayPersist 999 30 ≤ 30 :=
  ramadanDay_clamped_amended.1 999 30 (by norm_num)

/-- C8: loading is a total function of the store contents, and a missing or
invalid value for any key falls back to its default: absent or rejected plan
leaves no saved plan (live UI inputs are used), absent or non-numeric progress
gives `pagesCompleted = 0` with no timestamp, absent history gives the empty
list, absent day gives 1; an entirely empty store loads the default state. -/
theorem load_defaults :
    (∀ (pr : Option RawProgress) (hi : Option (List HistoryItem)) (rdy : Option ℚ),
        (loadState ⟨none, pr, hi, rdy⟩).plan = none)
  ∧ (∀ (dd ss : ℚ) (pr : Option RawProgress) (hi : Option (List HistoryItem))
        (rdy : Option ℚ),
        (loadState ⟨some ⟨0, dd, ss⟩, pr, hi, rdy⟩).plan = none)
  ∧ (∀ (p : Option Plan) (hi : Option (List HistoryItem)) (rdy : Option ℚ),
        (loadState ⟨p, none, hi, rdy⟩).progress = ⟨0, none⟩)
  ∧ (∀ (p : Option Plan) (lu : Option ℚ) (hi : Option (List HistoryItem))
        (rdy : Option ℚ),
        (loadState ⟨p, some ⟨none, lu⟩, hi, rdy⟩).progress = ⟨0, none⟩)
  ∧ (∀ (p : Option Plan) (pr : Option RawProgress) (rdy : Option ℚ),
        (loadState ⟨p, pr, none, rdy⟩).history = [])
  ∧ (∀ (p : Option Plan) (pr : Option RawProgress) (hi : Option (List HistoryItem)),
        (loadState ⟨p, pr, hi, none⟩).ramadanDay = 1)
  ∧ loadState ⟨none, none, none, none⟩ = defaultState :=
  ⟨fun pr hi rdy => loadState_plan_none pr hi rdy,
   fun dd ss pr hi rdy => loadState_plan_rejected 0 dd ss pr hi rdy rfl,
   fun p hi rdy => loadState_progress_none p hi rdy,
   fun p lu hi rdy => loadState_progress_invalid p lu hi rdy,
   fun p pr rdy => loadState_history_none p pr rdy,
   fun p pr hi => loadState_ramadanDay_none p pr hi,
   loadState_empty⟩

/-- C9: after the reset action, from any prior state, the persisted keys
`plan`, `progress`, `history` and `ramadanDay` are all absent (the `theme` key
survives), and every in-memory field equals its documented default: no saved
plan, `pagesCompleted = 0` with no timestamp, empty history, day cursor 1, and
the default plan inputs. -/
theorem resetAll_clears (s : AppState) (st : PersistedStore) :
    (resetAll s st).2.plan = none ∧ (resetAll s st).2.progress = none
  ∧ (resetAll s st).2.history = none ∧ (resetAll s st).2.ramadanDay = none
  ∧ (resetAll s st).2.theme = st.theme
  ∧ (resetAll s st).1 = defaultState
  ∧ defaultState.plan = none ∧ defaultState.progress = ⟨0, none⟩
  ∧ defaultState.history = ([] : List HistoryItem) ∧ defaultState.ramadanDay = 1
  ∧ defaultState.goalPreset = GoalPreset.one ∧ defaultState.customGoal = 1
  ∧ defaultState.daysPreset = DaysPreset.d30 ∧ defaultState.customDays = 30
  ∧ defaultState.sessions = 2 ∧ defaultState.trackMode = TrackMode.onPage
  ∧ defaultState.inputPage = 1 ∧ defaultState.inputReadPages = 0
  ∧ defaultState.planSavedToast = "" :=
  ⟨rfl, rfl, rfl, rfl, rfl, rfl, rfl, rfl, rfl, rfl, rfl, rfl, rfl, rfl, rfl, rfl, rfl,
   rfl, rfl⟩

end QuranPlanner
